import Mathlib

/-
Formal model of the PreçoZap service worker (src/sw.js).

The worker is shallowly embedded as pure Lean functions:
  * a `Response` is a status/headers/body record, a `Cache` is an
    association list from request URLs to responses, and the global
    `CacheStorage` is an association list from cache names to caches;
  * the host's `fetch` is modelled by an `Option Response` parameter
    (`none` = the fetch promise rejects, `some r` = it resolves with `r`,
    which may have a non-ok status);
  * JavaScript exceptions and promise rejections are modelled with
    `Except String`; a try/catch block is a `match` on the embedded
    try-body's `Except` value;
  * `Date.now()` is a `now : Nat` parameter (milliseconds).

Each strategy function mirrors the control flow of the corresponding
function in sw.js line by line.
-/

set_option autoImplicit false

namespace SW

/-- Snapshot of an HTTP response: status code, header list, body text.
`statusText` and streaming aspects are not observed by sw.js and are omitted. -/
structure Response where
  status  : Nat
  headers : List (String × String)
  body    : String
deriving DecidableEq

/-- The Fetch API's `response.ok`: status in the 2xx range. -/
def Response.ok (r : Response) : Bool :=
  decide (200 ≤ r.status ∧ r.status < 300)

/-- Headers.get: the entry stored for the key, if any. -/
def headerGet (hs : List (String × String)) (k : String) : Option String :=
  (hs.find? (fun p => p.1 == k)).map (fun p => p.2)

/-- Headers.set: replace any existing entry for the key. -/
def headersSet (hs : List (String × String)) (k v : String) : List (String × String) :=
  (k, v) :: hs.filter (fun p => p.1 != k)

/-- A named cache's contents: request URL to stored response. -/
abbrev Cache := List (String × Response)

/-- The CacheStorage: cache name to cache, in creation order. -/
abbrev CacheStorage := List (String × Cache)

/-- cache.match on a single cache. -/
def cacheGet (c : Cache) (k : String) : Option Response :=
  (c.find? (fun e => e.1 == k)).map (fun e => e.2)

/-- cache.put: overwrite any existing entry for the key. -/
def cachePutEntry (c : Cache) (k : String) (r : Response) : Cache :=
  (k, r) :: c.filter (fun e => e.1 != k)

/-- caches.open: create the named cache if absent (idempotent otherwise). -/
def cachesOpen (st : CacheStorage) (name : String) : CacheStorage :=
  if st.any (fun p => p.1 == name) then st else st ++ [(name, [])]

/-- Contents of the named cache (empty if the cache does not exist). -/
def storageGetCache (st : CacheStorage) (name : String) : Cache :=
  ((st.find? (fun p => p.1 == name)).map (fun p => p.2)).getD []

/-- cache.put on the named cache inside the storage. -/
def storagePut (st : CacheStorage) (name k : String) (r : Response) : CacheStorage :=
  st.map (fun p => if p.1 == name then (p.1, cachePutEntry p.2 k r) else p)

/-- caches.match: search every cache, in creation order, for the key. -/
def cachesMatchKey (st : CacheStorage) (k : String) : Option Response :=
  st.findSome? (fun p => cacheGet p.2 k)

/-- caches.delete: remove the named cache. -/
def cachesDelete (st : CacheStorage) (name : String) : CacheStorage :=
  st.filter (fun p => p.1 != name)

/-- Shell store name (`CACHE_NAME` in sw.js). -/
def CACHE_NAME : String := "precozap-v1"

/-- API store name (`API_CACHE` in sw.js). -/
def API_CACHE : String := "precozap-api-v1"

/-- new Response('Offline', \x7b status: 503 \x7d): the cache-first network-failure
fallback. A string body without an explicit Content-Type gets text/plain. -/
def offlineResponse : Response :=
  { status := 503
    headers := [("Content-Type", "text/plain;charset=UTF-8")]
    body := "Offline" }

/-- The localhost-branch fallback: JSON.stringify of
the object with error 'Servidor offline' and ok false, served with status 200
and a JSON content type. -/
def servidorOfflineResponse : Response :=
  { status := 200
    headers := [("Content-Type", "application/json")]
    body := "\x7b\"error\":\"Servidor offline\",\"ok\":false\x7d" }

/-- The networkFirstWithCache fallback: JSON.stringify of the object with
error 'offline' and an empty elements array, status 200, JSON content type. -/
def offlineGeoResponse : Response :=
  { status := 200
    headers := [("Content-Type", "application/json")]
    body := "\x7b\"error\":\"offline\",\"elements\":[]\x7d" }

/-- An intercepted request, reduced to the three URL components sw.js reads:
the full URL string (also the cache key), `url.hostname`, and `url.origin`. -/
structure Request where
  url      : String
  hostname : String
  origin   : String
deriving DecidableEq

/-- The first list starts with the second (structural recursion on chars;
the library's byte-position String.startsWith computes the same answer but
does not reduce definitionally). -/
def charsStartWith : List Char → List Char → Bool
  | _, [] => true
  | [], _ :: _ => false
  | c :: cs, p :: ps => c == p && charsStartWith cs ps

/-- The second list occurs contiguously in the first: the model of
JavaScript's String.prototype.includes used for the hostname markers. -/
def charsContain : List Char → List Char → Bool
  | [], pat => pat.isEmpty
  | c :: cs, pat => charsStartWith (c :: cs) pat || charsContain cs pat

/-- hostname.includes(pat) on the char-list representation. -/
def hostContains (host pat : String) : Bool :=
  charsContain host.data pat.data

/-- request.url.startsWith('http') on the char-list representation. -/
def urlIsHttp (req : Request) : Bool :=
  charsStartWith req.url.data ("http".data)

/-- Value of a string of decimal digits, accumulator style; `none` when a
non-digit appears, modelling parseInt returning NaN. -/
def parseDecimalAux : List Char → Nat → Option Nat
  | [], acc => some acc
  | c :: cs, acc =>
    if c.isDigit then parseDecimalAux cs (10 * acc + (c.toNat - 48)) else none

/-- parseInt for the strings that reach it here: a nonempty all-digit string
parses to its value, anything else to `none` (NaN). sw.js only ever writes
Date.now().toString(), a canonical decimal numeral, into sw-cached-at. -/
def parseDecimal (s : String) : Option Nat :=
  match s.data with
  | [] => none
  | cs => parseDecimalAux cs 0

/-- The five routing outcomes of the fetch listener. -/
inductive Category where
  | ignored
  | localDev
  | geoData
  | externalCDN
  | shell
deriving DecidableEq

/-- The fetch listener's routing chain (sw.js lines 41-70), in source order:
non-http URL, loopback hostnames, geo-data markers, CDN/font markers,
same-origin check against the worker's origin, otherwise no interception. -/
def classify (selfOrigin : String) (req : Request) : Category :=
  if !(urlIsHttp req) then .ignored
  else if req.hostname == "localhost" || req.hostname == "127.0.0.1" then .localDev
  else if hostContains req.hostname "openstreetmap"
       || hostContains req.hostname "overpass-api"
       || hostContains req.hostname "nominatim" then .geoData
  else if hostContains req.hostname "unpkg.com"
       || hostContains req.hostname "fonts.googleapis"
       || hostContains req.hostname "fonts.gstatic" then .externalCDN
  else if req.origin == selfOrigin then .shell
  else .ignored

/-- fetch(request): resolves with the response, or rejects on network failure. -/
def jsFetch (net : Option Response) : Except String Response :=
  match net with
  | some r => .ok r
  | none => .error "TypeError: Failed to fetch"

/-- A strategy's outcome: the value the respondWith promise settles on
(`none` models resolving with `undefined`), plus the final cache storage. -/
abbrev StrategyResult := Except String (Option Response × CacheStorage)

/-- cacheFirst (sw.js lines 74-87): global caches.match first; on a miss,
fetch, store a clone in the shell cache when ok, return the response;
if the fetch rejects, return the 503 'Offline' response. -/
def cacheFirst (net : Option Response) (st : CacheStorage) (req : Request) :
    StrategyResult :=
  match cachesMatchKey st req.url with
  | some cached => .ok (some cached, st)
  | none =>
    match
      (match jsFetch net with
       | .error e => .error e
       | .ok response =>
         if response.ok then
           .ok (some response,
                storagePut (cachesOpen st CACHE_NAME) CACHE_NAME req.url response)
         else
           .ok (some response, st) : StrategyResult)
    with
    | .ok out => .ok out
    | .error _ => .ok (some offlineResponse, st)

/-- staleWhileRevalidate (sw.js lines 89-99): open the shell cache, look the
request up there; the fetch promise stores an ok response and yields it, and
on rejection yields the earlier cached value; the function returns the cached
response when present (the background write still lands), otherwise the fetch
promise's outcome. -/
def staleWhileRevalidate (net : Option Response) (st : CacheStorage)
    (req : Request) : StrategyResult :=
  let st1 := cachesOpen st CACHE_NAME
  let cached := cacheGet (storageGetCache st1 CACHE_NAME) req.url
  let fetchOutcome : Option Response × CacheStorage :=
    match jsFetch net with
    | .ok response =>
      if response.ok then (some response, storagePut st1 CACHE_NAME req.url response)
      else (some response, st1)
    | .error _ => (cached, st1)
  match cached with
  | some c => .ok (some c, fetchOutcome.2)
  | none => .ok fetchOutcome

/-- parseInt(headerValue or '0') for the sw-cached-at header. The empty
string is falsy in JavaScript, so an absent or empty header parses as 0.
The header values sw.js itself writes are canonical decimal numerals, which
`String.toNat?` parses exactly; a non-numeric value yields `none`, modelling
NaN (every NaN comparison below is false, as in JavaScript). -/
def jsParseTimestamp (h : Option String) : Option Nat :=
  match h with
  | none => some 0
  | some v => if v = "" then some 0 else parseDecimal v

/-- networkFirstWithCache (sw.js lines 101-126): fetch first; on an ok
response, store a clone whose headers carry sw-cached-at = now, and return
the original; a rejection or a non-ok response (the explicit throw) falls to
the catch block, which serves a cached entry younger than the TTL and the
offline JSON stub otherwise. -/
def networkFirstWithCache (net : Option Response) (now : Nat)
    (st : CacheStorage) (req : Request) (cacheName : String) (ttlMs : Nat) :
    StrategyResult :=
  match
    (match jsFetch net with
     | .error e => .error e
     | .ok response =>
       if response.ok then
         let headers := headersSet response.headers "sw-cached-at" (toString now)
         let cloned : Response :=
           { status := response.status, headers := headers, body := response.body }
         .ok (some response,
              storagePut (cachesOpen st cacheName) cacheName req.url cloned)
       else
         .error "Error: bad response" : StrategyResult)
  with
  | .ok out => .ok out
  | .error _ =>
    let st1 := cachesOpen st cacheName
    match cacheGet (storageGetCache st1 cacheName) req.url with
    | some cached =>
      match jsParseTimestamp (headerGet cached.headers "sw-cached-at") with
      | some cachedAt =>
        if now - cachedAt < ttlMs then .ok (some cached, st1)
        else .ok (some offlineGeoResponse, st1)
      | none => .ok (some offlineGeoResponse, st1)
    | none => .ok (some offlineGeoResponse, st1)

/-- The localhost branch (sw.js lines 49-54): fetch, and on rejection return
the 'Servidor offline' JSON stub; no cache is touched. -/
def networkOnly (net : Option Response) (st : CacheStorage) : StrategyResult :=
  match jsFetch net with
  | .ok r => .ok (some r, st)
  | .error _ => .ok (some servidorOfflineResponse, st)

/-- The geo-data TTL: 30 * 60 * 1000 milliseconds. -/
def GEO_TTL : Nat := 30 * 60 * 1000

/-- The fetch listener: classify the request and dispatch to the matching
strategy; `none` means the listener returned without respondWith and the
request passes through to the network untouched. -/
def handleFetch (selfOrigin : String) (net : Option Response) (now : Nat)
    (st : CacheStorage) (req : Request) : Option StrategyResult :=
  match classify selfOrigin req with
  | .ignored => none
  | .localDev => some (networkOnly net st)
  | .geoData => some (networkFirstWithCache net now st req API_CACHE GEO_TTL)
  | .externalCDN => some (cacheFirst net st req)
  | .shell => some (staleWhileRevalidate net st req)

/-- The activate listener (sw.js lines 28-38): list the cache names, delete
every one that is neither CACHE_NAME nor API_CACHE, then claim the clients
(the Bool records that clients.claim ran). -/
def activateWorker (st : CacheStorage) : CacheStorage × Bool :=
  let victims := (st.map (fun p => p.1)).filter
    (fun k => k != CACHE_NAME && k != API_CACHE)
  (victims.foldl cachesDelete st, true)

/-- What the push listener can receive. `absent` is an event without data;
`malformed` is a data payload whose text is not valid JSON, so that
`.json()` throws; `parsedFalsy` is a payload parsing to a falsy JSON value
(null, 0, false, or the empty string); `parsedObj` is a payload parsing to
an object, each field `none` when absent or falsy (so that the per-field
`||` default applies). -/
inductive PushInput where
  | absent
  | malformed
  | parsedFalsy
  | parsedObj (title body url : Option String)

/-- The notification handed to registration.showNotification: title, the
options record's body, icon, badge, vibrate pattern, and the data.url
carried for the click handler. -/
structure NotifyCard where
  title   : String
  body    : String
  icon    : String
  badge   : String
  vibrate : List Nat
  dataUrl : String
deriving DecidableEq

/-- event.data?.json() as an Except value: `.ok none` when event.data is
undefined (the optional chain short-circuits), `.error` when JSON parsing
throws, `.ok (some v)` when it parses. -/
def pushEventData : PushInput → Except String (Option PushInput)
  | .absent => .ok none
  | .malformed => .error "SyntaxError: Unexpected token in JSON"
  | .parsedFalsy => .ok (some .parsedFalsy)
  | .parsedObj t b u => .ok (some (.parsedObj t b u))

/-- The push listener (sw.js lines 142-153): data = event.data?.json() || an
empty object, then showNotification with each field defaulted by `||`. A
parse exception propagates out of the listener uncaught. -/
def pushHandler (e : PushInput) : Except String NotifyCard :=
  match pushEventData e with
  | .error err => .error err
  | .ok raw =>
    let fields : Option String × Option String × Option String :=
      match raw with
      | some (.parsedObj t b u) => (t, b, u)
      | _ => (none, none, none)
    .ok { title := fields.1.getD "PreçoZap ⚡"
          body := fields.2.1.getD "Novos preços disponíveis!"
          icon := "/icons/icon-192x192.png"
          badge := "/icons/icon-96x96.png"
          vibrate := [200, 100, 200]
          dataUrl := fields.2.2.getD "/" }

/-- The notification shown for an empty payload object: every field at its
default. -/
def defaultCard : NotifyCard :=
  { title := "PreçoZap ⚡"
    body := "Novos preços disponíveis!"
    icon := "/icons/icon-192x192.png"
    badge := "/icons/icon-96x96.png"
    vibrate := [200, 100, 200]
    dataUrl := "/" }

/-- Ordered rule table: first predicate that holds selects the category,
and no match means `ignored`. -/
def firstMatch (rs : List ((Request → Bool) × Category)) (req : Request) :
    Category :=
  match rs with
  | [] => .ignored
  | (p, c) :: rest => if p req then c else firstMatch rest req

/-- The classifier's rule table as the spec's ordered first-match list, with
the same-origin rule comparing the URL's origin with the worker's origin. -/
def routingRules (selfOrigin : String) :
    List ((Request → Bool) × Category) :=
  [ (fun r => !(urlIsHttp r), .ignored)
  , (fun r => r.hostname == "localhost" || r.hostname == "127.0.0.1", .localDev)
  , (fun r => hostContains r.hostname "openstreetmap"
           || hostContains r.hostname "overpass-api"
           || hostContains r.hostname "nominatim", .geoData)
  , (fun r => hostContains r.hostname "unpkg.com"
           || hostContains r.hostname "fonts.googleapis"
           || hostContains r.hostname "fonts.gstatic", .externalCDN)
  , (fun r => r.origin == selfOrigin, .shell) ]

/-- The rule table exactly as the claim words it: the same-origin rule
compares the request's hostname with the worker's origin. -/
def routingRulesHostnameVsOrigin (selfOrigin : String) :
    List ((Request → Bool) × Category) :=
  [ (fun r => !(urlIsHttp r), .ignored)
  , (fun r => r.hostname == "localhost" || r.hostname == "127.0.0.1", .localDev)
  , (fun r => hostContains r.hostname "openstreetmap"
           || hostContains r.hostname "overpass-api"
           || hostContains r.hostname "nominatim", .geoData)
  , (fun r => hostContains r.hostname "unpkg.com"
           || hostContains r.hostname "fonts.googleapis"
           || hostContains r.hostname "fonts.gstatic", .externalCDN)
  , (fun r => r.hostname == selfOrigin, .shell) ]

/-- cacheFirst as the claim words it: the initial lookup confined to the
shell store rather than the global caches.match. Identical to `cacheFirst`
in every other respect. -/
def cacheFirstShellLookup (net : Option Response) (st : CacheStorage)
    (req : Request) : StrategyResult :=
  match cacheGet (storageGetCache st CACHE_NAME) req.url with
  | some cached => .ok (some cached, st)
  | none =>
    match
      (match jsFetch net with
       | .error e => .error e
       | .ok response =>
         if response.ok then
           .ok (some response,
                storagePut (cachesOpen st CACHE_NAME) CACHE_NAME req.url response)
         else
           .ok (some response, st) : StrategyResult)
    with
    | .ok out => .ok out
    | .error _ => .ok (some offlineResponse, st)

/-- A strategy outcome settles on an actual response (not undefined, and
not a thrown exception). -/
def returnsSomeResponse (res : StrategyResult) : Prop :=
  ∃ r s, res = .ok (some r, s)

/-- Every entry of every cache in the storage holds a 2xx-ok response. -/
def allOk (st : CacheStorage) : Prop :=
  ∀ n c, (n, c) ∈ st → ∀ k r, (k, r) ∈ c → r.ok = true

/-- The final cache storage of a strategy outcome (with a default for the
never-taken error case). -/
def resultState (d : CacheStorage) : StrategyResult → CacheStorage
  | .ok (_, s) => s
  | .error _ => d

/-- The value a strategy outcome resolves with (`none` both for undefined
and for the never-taken error case). -/
def resultValue : StrategyResult → Option Response
  | .ok (o, _) => o
  | .error _ => none

/-- A CDN request used as a concrete evaluation point. -/
def reqCDN : Request :=
  ⟨"https://unpkg.com/leaflet", "unpkg.com", "https://unpkg.com"⟩

/-- A same-origin shell request used as a concrete evaluation point. -/
def reqShell : Request :=
  ⟨"https://precozap.example/index.html", "precozap.example",
   "https://precozap.example"⟩

/-- A geo-data request used as a concrete evaluation point. -/
def reqGeo : Request :=
  ⟨"https://overpass-api.de/api", "overpass-api.de", "https://overpass-api.de"⟩

/-- A local-development request used as a concrete evaluation point. -/
def reqLocal : Request :=
  ⟨"http://localhost:3000/api", "localhost", "http://localhost:3000"⟩

/-- A stored geo-data response carrying a sw-cached-at timestamp of 500000. -/
def geoCachedEntry : Response :=
  ⟨200, [("sw-cached-at", "500000")], "geo"⟩

/-- A storage whose API cache holds `geoCachedEntry` for `reqGeo`. -/
def stGeo : CacheStorage :=
  [(API_CACHE, [("https://overpass-api.de/api", geoCachedEntry)])]

/-- A stored geo-data response with no sw-cached-at header. -/
def geoEntryNoStamp : Response := ⟨200, [], "geo-no-stamp"⟩

/-- A storage whose API cache holds `geoEntryNoStamp` for `reqGeo`. -/
def stGeoNoStamp : CacheStorage :=
  [(API_CACHE, [("https://overpass-api.de/api", geoEntryNoStamp)])]

/-- A stray response sitting in the API cache under the CDN request's URL. -/
def apiStray : Response := ⟨200, [], "apibody"⟩

/-- A storage with no shell cache whose API cache holds `apiStray` for
`reqCDN`. -/
def stApiOnly : CacheStorage :=
  [(API_CACHE, [("https://unpkg.com/leaflet", apiStray)])]

/-- A fresh ok network response for the CDN request. -/
def freshCdn : Response := ⟨200, [], "fresh"⟩

/-- A cached copy of the shell page. -/
def shellEntry : Response := ⟨200, [], "shell-page"⟩

/-- A storage whose shell cache holds `shellEntry` for `reqShell`. -/
def stShell : CacheStorage :=
  [(CACHE_NAME, [("https://precozap.example/index.html", shellEntry)])]

/-- A network fetch that rejects, and a fetch resolving with a non-ok
response, both land networkFirstWithCache in its catch block, whose
behaviour depends only on the cached entry and the clock. -/
theorem networkFirst_catch (net : Option Response) (now : Nat)
    (st : CacheStorage) (req : Request) (cacheName : String) (ttlMs : Nat)
    (hfail : net = none ∨ ∃ r, net = some r ∧ r.ok = false) :
    networkFirstWithCache net now st req cacheName ttlMs =
      match cacheGet (storageGetCache (cachesOpen st cacheName) cacheName)
              req.url with
      | some cached =>
        match jsParseTimestamp (headerGet cached.headers "sw-cached-at") with
        | some cachedAt =>
          if now - cachedAt < ttlMs then
            .ok (some cached, cachesOpen st cacheName)
          else
            .ok (some offlineGeoResponse, cachesOpen st cacheName)
        | none => .ok (some offlineGeoResponse, cachesOpen st cacheName)
      | none => .ok (some offlineGeoResponse, cachesOpen st cacheName) := by
  rcases hfail with rfl | ⟨r, rfl, hok⟩
  · rfl
  · simp [networkFirstWithCache, jsFetch, hok]

/-- C1: for a geo-data request handled by network-first-with-TTL on store
API_CACHE with a 30-minute TTL, when the network fetch fails or returns a
non-ok status (both treated as failure), a stored entry whose sw-cached-at
header parses to t is returned exactly when now - t is under the TTL, and
the synthetic offline JSON stub is returned otherwise (also when no entry
is stored). -/
theorem C1_geo_ttl_fallback (net : Option Response) (now : Nat)
    (st : CacheStorage) (req : Request)
    (hfail : net = none ∨ ∃ r, net = some r ∧ r.ok = false) :
    (∀ cached t,
      cacheGet (storageGetCache (cachesOpen st API_CACHE) API_CACHE) req.url
        = some cached →
      jsParseTimestamp (headerGet cached.headers "sw-cached-at") = some t →
      networkFirstWithCache net now st req API_CACHE GEO_TTL =
        .ok (some (if now - t < GEO_TTL then cached else offlineGeoResponse),
             cachesOpen st API_CACHE)) ∧
    (cacheGet (storageGetCache (cachesOpen st API_CACHE) API_CACHE) req.url
        = none →
      networkFirstWithCache net now st req API_CACHE GEO_TTL =
        .ok (some offlineGeoResponse, cachesOpen st API_CACHE)) := by
  rw [networkFirst_catch net now st req API_CACHE GEO_TTL hfail]
  constructor
  · intro cached t hc ht
    simp only [hc, ht]
    by_cases hlt : now - t < GEO_TTL <;> simp [hlt]
  · intro hc
    simp only [hc]

/-- Closed instance of C1_geo_ttl_fallback: a rejected fetch at time 5000000
against an entry stamped 500000 (older than the TTL). -/
theorem C1_geo_ttl_fallback_witness :
    networkFirstWithCache none 5000000 stGeo reqGeo API_CACHE GEO_TTL =
      .ok (some (if 5000000 - 500000 < GEO_TTL then geoCachedEntry
                 else offlineGeoResponse),
           cachesOpen stGeo API_CACHE) :=
  (C1_geo_ttl_fallback none 5000000 stGeo reqGeo (Or.inl rfl)).1
    geoCachedEntry 500000 (by decide) (by decide)

/-- C8: in the TTL check of network-first-with-TTL, a cached entry lacking
the sw-cached-at header parses as timestamp 0 (epoch zero), so whenever the
current time is at least the TTL past the epoch the entry is stale and the
offline JSON stub is returned in its place. -/
theorem C8_missing_stamp_always_stale (net : Option Response) (now : Nat)
    (st : CacheStorage) (req : Request) (cached : Response)
    (hfail : net = none ∨ ∃ r, net = some r ∧ r.ok = false)
    (hnow : GEO_TTL ≤ now)
    (hc : cacheGet (storageGetCache (cachesOpen st API_CACHE) API_CACHE)
        req.url = some cached)
    (hh : headerGet cached.headers "sw-cached-at" = none) :
    jsParseTimestamp (headerGet cached.headers "sw-cached-at") = some 0 ∧
    networkFirstWithCache net now st req API_CACHE GEO_TTL =
      .ok (some offlineGeoResponse, cachesOpen st API_CACHE) := by
  refine ⟨by rw [hh]; rfl, ?_⟩
  rw [networkFirst_catch net now st req API_CACHE GEO_TTL hfail]
  simp only [hc, hh, jsParseTimestamp]
  have hge : ¬ now < GEO_TTL := by
    simp only [GEO_TTL] at hnow ⊢
    omega
  simp [hge]

/-- Closed instance of C8_missing_stamp_always_stale: a rejected fetch at
time 2000000 against a stored entry with no sw-cached-at header. -/
theorem C8_missing_stamp_always_stale_witness :
    jsParseTimestamp (headerGet geoEntryNoStamp.headers "sw-cached-at")
      = some 0 ∧
    networkFirstWithCache none 2000000 stGeoNoStamp reqGeo API_CACHE GEO_TTL =
      .ok (some offlineGeoResponse, cachesOpen stGeoNoStamp API_CACHE) :=
  C8_missing_stamp_always_stale none 2000000 stGeoNoStamp reqGeo
    geoEntryNoStamp (Or.inl rfl) (by decide) (by decide) (by decide)

/-- C2 counterexample: the claim reads cache-first's lookup as confined to
the shell store, but the code calls the global caches.match. In a storage
whose API cache (and not the shell cache) holds an entry for the CDN URL,
cacheFirst returns that stray entry while the shell-store-lookup reading
fetches and returns the fresh network response. -/
theorem C2_counterexample :
    cacheFirst (some freshCdn) stApiOnly reqCDN ≠
      cacheFirstShellLookup (some freshCdn) stApiOnly reqCDN := by
  have h1 : cacheFirst (some freshCdn) stApiOnly reqCDN =
      Except.ok (some apiStray, stApiOnly) := rfl
  have h2 : cacheFirstShellLookup (some freshCdn) stApiOnly reqCDN =
      Except.ok (some freshCdn,
        storagePut (cachesOpen stApiOnly CACHE_NAME) CACHE_NAME
          reqCDN.url freshCdn) := rfl
  intro h
  rw [h1, h2] at h
  simp [apiStray, freshCdn] at h

/-- C2 (amended): cache-first looks the request up with the global cache
match across all stores; a hit is returned as is with the storage untouched;
on a miss the network response is returned, stored in the shell store first
exactly when it is 2xx-ok; and a failed fetch yields the synthetic 503
response with body Offline. -/
theorem C2_cacheFirst_behaviour (net : Option Response) (st : CacheStorage)
    (req : Request) :
    (∀ c, cachesMatchKey st req.url = some c →
        cacheFirst net st req = .ok (some c, st)) ∧
    (cachesMatchKey st req.url = none →
      (net = none → cacheFirst net st req = .ok (some offlineResponse, st)) ∧
      (∀ r, net = some r →
        cacheFirst net st req =
          .ok (some r,
               if r.ok then
                 storagePut (cachesOpen st CACHE_NAME) CACHE_NAME req.url r
               else st))) := by
  refine ⟨fun c hc => ?_, fun hm => ⟨fun hn => ?_, fun r hr => ?_⟩⟩
  · simp [cacheFirst, hc]
  · subst hn
    simp [cacheFirst, hm, jsFetch]
  · subst hr
    by_cases hok : r.ok <;> simp [cacheFirst, hm, jsFetch, hok]

/-- Closed instance of C2_cacheFirst_behaviour: the global match serves the
stray API-cache entry for the CDN request. -/
theorem C2_cacheFirst_behaviour_witness :
    cacheFirst (some freshCdn) stApiOnly reqCDN =
      .ok (some apiStray, stApiOnly) :=
  (C2_cacheFirst_behaviour (some freshCdn) stApiOnly reqCDN).1
    apiStray (by decide)

/-- C3: stale-while-revalidate returns the cached shell entry whenever one
exists, whatever the network outcome; on a cache miss it returns the network
response, and a failed fetch resolves to the absent cached value with the
storage left at the freshly opened shell cache. -/
theorem C3_swr_behaviour (net : Option Response) (st : CacheStorage)
    (req : Request) :
    (∀ c, cacheGet (storageGetCache (cachesOpen st CACHE_NAME) CACHE_NAME)
            req.url = some c →
        resultValue (staleWhileRevalidate net st req) = some c) ∧
    (cacheGet (storageGetCache (cachesOpen st CACHE_NAME) CACHE_NAME)
        req.url = none →
      (∀ r, net = some r →
         resultValue (staleWhileRevalidate net st req) = some r) ∧
      (net = none →
         staleWhileRevalidate net st req =
           .ok (none, cachesOpen st CACHE_NAME))) := by
  refine ⟨fun c hc => ?_, fun hm => ⟨fun r hr => ?_, fun hn => ?_⟩⟩
  · cases net with
    | none => simp [staleWhileRevalidate, jsFetch, hc, resultValue]
    | some r =>
      by_cases hok : r.ok <;>
        simp [staleWhileRevalidate, jsFetch, hc, hok, resultValue]
  · subst hr
    by_cases hok : r.ok <;>
      simp [staleWhileRevalidate, jsFetch, hm, hok, resultValue]
  · subst hn
    simp [staleWhileRevalidate, jsFetch, hm]

/-- Closed instance of C3_swr_behaviour: with the shell page cached, the
cached copy is what a failed-network invocation resolves with. -/
theorem C3_swr_behaviour_witness :
    resultValue (staleWhileRevalidate none stShell reqShell) =
      some shellEntry :=
  (C3_swr_behaviour none stShell reqShell).1 shellEntry (by decide)

/-- C4 counterexample: the claim's fifth rule compares the request's
hostname with the worker's origin. For an ordinary same-origin page request
the hostname (no scheme) never equals the origin (scheme://host), so the
claim's rule table classifies it as ignored while the code, comparing
url.origin with the worker origin, classifies it as same-origin-shell. -/
theorem C4_counterexample :
    classify "https://precozap.example" reqShell ≠
      firstMatch (routingRulesHostnameVsOrigin "https://precozap.example")
        reqShell := by
  decide

/-- C4 (amended): classification is the ordered first-match evaluation of
the rule table whose fifth rule compares the URL's origin (not its
hostname) with the worker's own origin; no match means ignored. -/
theorem C4_classifier_first_match (selfOrigin : String) (req : Request) :
    classify selfOrigin req = firstMatch (routingRules selfOrigin) req := by
  rfl

/-- C5 counterexample: stale-while-revalidate, run with an empty storage and
a failing fetch, resolves with no response at all (undefined), not with a
synthetic fallback response. -/
theorem C5_counterexample :
    ¬ returnsSomeResponse (staleWhileRevalidate none [] reqShell) := by
  rintro ⟨r, s, h⟩
  rw [show staleWhileRevalidate none [] reqShell =
      Except.ok (none, cachesOpen [] CACHE_NAME) from rfl] at h
  simp at h

/-- C5 (amended): no strategy ever surfaces an uncaught fault: all four
always resolve. cache-first, network-only and network-first-with-TTL always
resolve to an actual response; stale-while-revalidate also resolves, but to
no response exactly when the fetch failed and nothing was cached: a
none-result implies a failed fetch over an empty lookup, and conversely
every failed fetch over an empty lookup resolves to none. -/
theorem C5_strategies_resolve (net : Option Response) (now : Nat)
    (st : CacheStorage) (req : Request) (cacheName : String) (ttlMs : Nat) :
    returnsSomeResponse (cacheFirst net st req) ∧
    returnsSomeResponse (networkOnly net st) ∧
    returnsSomeResponse (networkFirstWithCache net now st req cacheName ttlMs) ∧
    (∃ o s, staleWhileRevalidate net st req = .ok (o, s)) ∧
    (∀ s, staleWhileRevalidate net st req = .ok (none, s) →
        net = none ∧
        cacheGet (storageGetCache (cachesOpen st CACHE_NAME) CACHE_NAME)
          req.url = none) ∧
    (net = none →
      cacheGet (storageGetCache (cachesOpen st CACHE_NAME) CACHE_NAME)
        req.url = none →
      staleWhileRevalidate net st req = .ok (none, cachesOpen st CACHE_NAME)) := by
  refine ⟨?_, ?_, ?_, ?_, ?_, ?_⟩
  · cases hm : cachesMatchKey st req.url with
    | some c => exact ⟨c, st, by simp [cacheFirst, hm]⟩
    | none =>
      cases net with
      | none => exact ⟨offlineResponse, st, by simp [cacheFirst, hm, jsFetch]⟩
      | some r =>
        by_cases hok : r.ok
        · exact ⟨r, storagePut (cachesOpen st CACHE_NAME) CACHE_NAME req.url r,
            by simp [cacheFirst, hm, jsFetch, hok]⟩
        · exact ⟨r, st, by simp [cacheFirst, hm, jsFetch, hok]⟩
  · cases net with
    | none => exact ⟨servidorOfflineResponse, st, rfl⟩
    | some r => exact ⟨r, st, rfl⟩
  · have hsome : ∀ (hfail : net = none ∨ ∃ r, net = some r ∧ r.ok = false),
        returnsSomeResponse
          (networkFirstWithCache net now st req cacheName ttlMs) := by
      intro hfail
      rw [networkFirst_catch net now st req cacheName ttlMs hfail]
      cases hc : cacheGet (storageGetCache (cachesOpen st cacheName) cacheName)
          req.url with
      | none => exact ⟨offlineGeoResponse, cachesOpen st cacheName, by simp [hc]⟩
      | some cached =>
        cases hts : jsParseTimestamp (headerGet cached.headers "sw-cached-at")
            with
        | none =>
          exact ⟨offlineGeoResponse, cachesOpen st cacheName, by simp [hts]⟩
        | some t =>
          by_cases hlt : now - t < ttlMs
          · exact ⟨cached, cachesOpen st cacheName, by simp [hts, hlt]⟩
          · exact ⟨offlineGeoResponse, cachesOpen st cacheName,
              by simp [hts, hlt]⟩
    cases net with
    | none => exact hsome (Or.inl rfl)
    | some r =>
      by_cases hok : r.ok
      · exact ⟨r, storagePut (cachesOpen st cacheName) cacheName req.url
            { status := r.status
              headers := headersSet r.headers "sw-cached-at" (toString now)
              body := r.body },
          by simp [networkFirstWithCache, jsFetch, hok]⟩
      · exact hsome (Or.inr ⟨r, rfl, by simpa using hok⟩)
  · cases hc : cacheGet (storageGetCache (cachesOpen st CACHE_NAME) CACHE_NAME)
        req.url with
    | some c =>
      cases net with
      | none => exact ⟨some c, cachesOpen st CACHE_NAME,
          by simp [staleWhileRevalidate, jsFetch, hc]⟩
      | some r =>
        by_cases hok : r.ok
        · exact ⟨some c,
            storagePut (cachesOpen st CACHE_NAME) CACHE_NAME req.url r,
            by simp [staleWhileRevalidate, jsFetch, hc, hok]⟩
        · exact ⟨some c, cachesOpen st CACHE_NAME,
            by simp [staleWhileRevalidate, jsFetch, hc, hok]⟩
    | none =>
      cases net with
      | none => exact ⟨none, cachesOpen st CACHE_NAME,
          by simp [staleWhileRevalidate, jsFetch, hc]⟩
      | some r =>
        by_cases hok : r.ok
        · exact ⟨some r,
            storagePut (cachesOpen st CACHE_NAME) CACHE_NAME req.url r,
            by simp [staleWhileRevalidate, jsFetch, hc, hok]⟩
        · exact ⟨some r, cachesOpen st CACHE_NAME,
            by simp [staleWhileRevalidate, jsFetch, hc, hok]⟩
  · intro s h
    cases hc : cacheGet (storageGetCache (cachesOpen st CACHE_NAME) CACHE_NAME)
        req.url with
    | some c => simp [staleWhileRevalidate, jsFetch, hc] at h
    | none =>
      cases net with
      | none => exact ⟨rfl, rfl⟩
      | some r =>
        by_cases hok : r.ok <;>
          simp [staleWhileRevalidate, jsFetch, hc, hok] at h
  · intro hn hc
    subst hn
    simp [staleWhileRevalidate, jsFetch, hc]

/-- Closed instance of C5_strategies_resolve at a failing fetch over the
empty storage. -/
theorem C5_strategies_resolve_witness :
    returnsSomeResponse (cacheFirst none [] reqCDN) ∧
    returnsSomeResponse (networkOnly none []) ∧
    returnsSomeResponse (networkFirstWithCache none 0 [] reqCDN API_CACHE
      GEO_TTL) ∧
    (∃ o s, staleWhileRevalidate none [] reqCDN = .ok (o, s)) ∧
    (∀ s, staleWhileRevalidate none [] reqCDN = .ok (none, s) →
        (none : Option Response) = none ∧
        cacheGet (storageGetCache (cachesOpen [] CACHE_NAME) CACHE_NAME)
          reqCDN.url = none) ∧
    ((none : Option Response) = none →
      cacheGet (storageGetCache (cachesOpen [] CACHE_NAME) CACHE_NAME)
        reqCDN.url = none →
      staleWhileRevalidate none [] reqCDN =
        .ok (none, cachesOpen [] CACHE_NAME)) :=
  C5_strategies_resolve none 0 [] reqCDN API_CACHE GEO_TTL

/-- C6: a loopback-hostname request never has its handling write any store
(the storage comes back unchanged), and when the URL is http(s) it is routed
to the network-only branch, whose failure response is exactly the
Servidor-offline JSON stub. -/
theorem C6_localhost_no_store (so : String) (net : Option Response)
    (now : Nat) (st : CacheStorage) (req : Request)
    (hloop : req.hostname = "localhost" ∨ req.hostname = "127.0.0.1") :
    (∀ o s, handleFetch so net now st req = some (.ok (o, s)) → s = st) ∧
    (urlIsHttp req = true →
        handleFetch so net now st req = some (networkOnly net st)) ∧
    (net = none →
        networkOnly net st = .ok (some servidorOfflineResponse, st)) := by
  have hcls : classify so req =
      if urlIsHttp req then Category.localDev else Category.ignored := by
    by_cases hu : urlIsHttp req <;>
      rcases hloop with h | h <;> simp [classify, h, hu]
  refine ⟨?_, fun hu => ?_, fun hn => ?_⟩
  · intro o s h
    by_cases hu : urlIsHttp req
    · simp only [handleFetch, hcls, hu, if_true] at h
      cases net with
      | none =>
        simp only [networkOnly, jsFetch, Option.some.injEq] at h
        exact congrArg (resultState st) h.symm
      | some r =>
        simp only [networkOnly, jsFetch, Option.some.injEq] at h
        exact congrArg (resultState st) h.symm
    · simp [handleFetch, hcls, hu] at h
  · simp [handleFetch, hcls, hu]
  · subst hn
    rfl

/-- Closed instance of C6_localhost_no_store: the localhost request with a
failing fetch is dispatched to network-only. -/
theorem C6_localhost_no_store_witness :
    handleFetch "x" none 0 [] reqLocal = some (networkOnly none []) :=
  (C6_localhost_no_store "x" none 0 [] reqLocal (Or.inl rfl)).2.1 (by decide)

/-- Membership after deleting one cache: the entry survives iff it was
there and is not the deleted name. -/
theorem mem_cachesDelete {st : CacheStorage} {n : String}
    {p : String × Cache} :
    p ∈ cachesDelete st n ↔ p ∈ st ∧ p.1 ≠ n := by
  simp [cachesDelete, List.mem_filter]

/-- Membership after folding deletions over a list of names. -/
theorem mem_foldl_cachesDelete (names : List String) (st : CacheStorage)
    (p : String × Cache) :
    p ∈ names.foldl cachesDelete st ↔ p ∈ st ∧ p.1 ∉ names := by
  induction names generalizing st with
  | nil => simp
  | cons a as ih =>
    simp only [List.foldl_cons, ih, mem_cachesDelete, List.mem_cons]
    tauto

/-- C7: activation keeps exactly the entries named CACHE_NAME or API_CACHE,
deletes every other store, and runs clients.claim afterwards; in particular
a storage holding the two live stores plus one orphan loses exactly the
orphan. -/
theorem C7_activate_cleanup (st : CacheStorage) :
    (∀ p : String × Cache, p ∈ (activateWorker st).1 ↔
        p ∈ st ∧ (p.1 = CACHE_NAME ∨ p.1 = API_CACHE)) ∧
    (activateWorker st).2 = true ∧
    activateWorker [(CACHE_NAME, []), (API_CACHE, []), ("precozap-v0", [])]
      = ([(CACHE_NAME, []), (API_CACHE, [])], true) := by
  refine ⟨fun p => ?_, rfl, by decide⟩
  have hfold : (activateWorker st).1 =
      ((st.map (fun q => q.1)).filter
        (fun k => k != CACHE_NAME && k != API_CACHE)).foldl cachesDelete st :=
    rfl
  rw [hfold, mem_foldl_cachesDelete]
  constructor
  · rintro ⟨hp, hnot⟩
    refine ⟨hp, ?_⟩
    by_cases h1 : p.1 = CACHE_NAME
    · exact Or.inl h1
    · by_cases h2 : p.1 = API_CACHE
      · exact Or.inr h2
      · exfalso
        apply hnot
        refine List.mem_filter.mpr ⟨List.mem_map.mpr ⟨p, hp, rfl⟩, ?_⟩
        simp [h1, h2]
  · rintro ⟨hp, hor⟩
    refine ⟨hp, fun hmem => ?_⟩
    have hcond := (List.mem_filter.mp hmem).2
    rcases hor with h | h <;> simp [h] at hcond

/-- C9 counterexample: a push payload that fails JSON parsing does not get
an empty structure substituted; the parse exception escapes the handler and
no notification (in particular not the all-defaults one) is displayed. -/
theorem C9_counterexample :
    pushHandler PushInput.malformed =
      Except.error "SyntaxError: Unexpected token in JSON" ∧
    pushHandler PushInput.malformed ≠ Except.ok defaultCard :=
  ⟨rfl, fun h => Except.noConfusion h⟩

/-- C9 (amended): the empty structure is substituted when the payload is
absent or parses to a falsy JSON value (a payload that fails to parse
instead makes the handler throw), and the displayed notification takes
title, body and data.url from the payload with defaults PreçoZap ⚡, the
fixed body, and the root path. -/
theorem C9_push_defaults :
    pushHandler .absent = .ok defaultCard ∧
    pushHandler .parsedFalsy = .ok defaultCard ∧
    (∀ t b u, pushHandler (.parsedObj t b u) =
        .ok { title := t.getD "PreçoZap ⚡"
              body := b.getD "Novos preços disponíveis!"
              icon := "/icons/icon-192x192.png"
              badge := "/icons/icon-96x96.png"
              vibrate := [200, 100, 200]
              dataUrl := u.getD "/" }) ∧
    pushHandler (.parsedObj (some "X") (some "Y") (some "/z")) =
      .ok { title := "X"
            body := "Y"
            icon := "/icons/icon-192x192.png"
            badge := "/icons/icon-96x96.png"
            vibrate := [200, 100, 200]
            dataUrl := "/z" } :=
  ⟨rfl, rfl, fun _ _ _ => rfl, rfl⟩

/-- Opening a cache preserves the all-ok invariant: a fresh cache is empty. -/
theorem allOk_cachesOpen {st : CacheStorage} (h : allOk st) (name : String) :
    allOk (cachesOpen st name) := by
  unfold cachesOpen
  split
  · exact h
  · intro n c hmem k r hkr
    rcases List.mem_append.mp hmem with hl | hr
    · exact h n c hl k r hkr
    · simp only [List.mem_singleton, Prod.mk.injEq] at hr
      rcases hr with ⟨-, hc⟩
      subst hc
      exact absurd hkr (List.not_mem_nil _)

/-- Putting an ok response preserves the all-ok invariant. -/
theorem allOk_storagePut {st : CacheStorage} (h : allOk st) (r : Response)
    (hr : r.ok = true) (name k : String) :
    allOk (storagePut st name k r) := by
  intro n c hmem k' r' hkr
  rcases List.mem_map.mp hmem with ⟨q, hq, hfq⟩
  by_cases hn : (q.1 == name) = true
  · rw [if_pos hn] at hfq
    injection hfq with h1 h2
    subst h1
    subst h2
    rcases List.mem_cons.mp hkr with hkr1 | hkr2
    · injection hkr1 with hk1 hr1
      subst hr1
      exact hr
    · exact h q.1 q.2 hq k' r' (List.mem_of_mem_filter hkr2)
  · rw [if_neg hn] at hfq
    subst hfq
    exact h n c hq k' r' hkr

/-- Under a failed or non-ok fetch, networkFirstWithCache leaves the storage
at the freshly opened named cache, whichever way the TTL check goes. -/
theorem networkFirst_catch_state (net : Option Response) (now : Nat)
    (st : CacheStorage) (req : Request) (cacheName : String) (ttlMs : Nat)
    (hfail : net = none ∨ ∃ r, net = some r ∧ r.ok = false) :
    resultState st (networkFirstWithCache net now st req cacheName ttlMs) =
      cachesOpen st cacheName := by
  rw [networkFirst_catch net now st req cacheName ttlMs hfail]
  cases hc : cacheGet (storageGetCache (cachesOpen st cacheName) cacheName)
      req.url with
  | none => rfl
  | some cached =>
    cases hts : jsParseTimestamp (headerGet cached.headers "sw-cached-at")
        with
    | none => simp [hts, resultState]
    | some t =>
      by_cases hlt : now - t < ttlMs <;> simp [hts, hlt, resultState]

/-- C10: the three writing strategies only ever insert 2xx-ok responses:
when every stored entry is ok beforehand, every stored entry is still ok
after a cache-first, stale-while-revalidate or network-first-with-TTL
invocation, whatever the request and network outcome. -/
theorem C10_only_ok_stored (net : Option Response) (now : Nat)
    (st : CacheStorage) (req : Request) (cacheName : String) (ttlMs : Nat)
    (h : allOk st) :
    allOk (resultState st (cacheFirst net st req)) ∧
    allOk (resultState st (staleWhileRevalidate net st req)) ∧
    allOk (resultState st
      (networkFirstWithCache net now st req cacheName ttlMs)) := by
  have hCatch : ∀ (hfail : net = none ∨ ∃ r, net = some r ∧ r.ok = false),
      allOk (resultState st
        (networkFirstWithCache net now st req cacheName ttlMs)) := by
    intro hfail
    rw [networkFirst_catch_state net now st req cacheName ttlMs hfail]
    exact allOk_cachesOpen h cacheName
  refine ⟨?_, ?_, ?_⟩
  · cases hm : cachesMatchKey st req.url with
    | some c => simpa only [cacheFirst, hm, resultState] using h
    | none =>
      cases net with
      | none => simpa only [cacheFirst, hm, jsFetch, resultState] using h
      | some r =>
        by_cases hok : r.ok
        · simp only [cacheFirst, hm, jsFetch, hok, if_pos, resultState]
          exact allOk_storagePut (allOk_cachesOpen h CACHE_NAME) r hok
            CACHE_NAME req.url
        · simp only [cacheFirst, hm, jsFetch, resultState]
          rw [if_neg (by simpa using hok)]
          simpa only [resultState] using h
  · cases hc : cacheGet (storageGetCache (cachesOpen st CACHE_NAME) CACHE_NAME)
        req.url with
    | some c =>
      cases net with
      | none =>
        simp only [staleWhileRevalidate, jsFetch, hc, resultState]
        exact allOk_cachesOpen h CACHE_NAME
      | some r =>
        by_cases hok : r.ok
        · simp only [staleWhileRevalidate, jsFetch, hc, hok, if_pos,
            resultState]
          exact allOk_storagePut (allOk_cachesOpen h CACHE_NAME) r hok
            CACHE_NAME req.url
        · simp only [staleWhileRevalidate, jsFetch, hc, resultState]
          rw [if_neg (by simpa using hok)]
          exact allOk_cachesOpen h CACHE_NAME
    | none =>
      cases net with
      | none =>
        simp only [staleWhileRevalidate, jsFetch, hc, resultState]
        exact allOk_cachesOpen h CACHE_NAME
      | some r =>
        by_cases hok : r.ok
        · simp only [staleWhileRevalidate, jsFetch, hc, hok, if_pos,
            resultState]
          exact allOk_storagePut (allOk_cachesOpen h CACHE_NAME) r hok
            CACHE_NAME req.url
        · simp only [staleWhileRevalidate, jsFetch, hc, resultState]
          rw [if_neg (by simpa using hok)]
          exact allOk_cachesOpen h CACHE_NAME
  · cases net with
    | none => exact hCatch (Or.inl rfl)
    | some r =>
      by_cases hok : r.ok
      · simp only [networkFirstWithCache, jsFetch, hok, if_pos, resultState]
        exact allOk_storagePut (allOk_cachesOpen h cacheName)
          { status := r.status
            headers := headersSet r.headers "sw-cached-at" (toString now)
            body := r.body }
          hok cacheName req.url
      · exact hCatch (Or.inr ⟨r, rfl, by simpa using hok⟩)

/-- Closed instance of C10_only_ok_stored over the empty storage with a
failing fetch. -/
theorem C10_only_ok_stored_witness :
    allOk (resultState [] (cacheFirst none [] reqCDN)) ∧
    allOk (resultState [] (staleWhileRevalidate none [] reqCDN)) ∧
    allOk (resultState []
      (networkFirstWithCache none 0 [] reqCDN API_CACHE GEO_TTL)) :=
  C10_only_ok_stored none 0 [] reqCDN API_CACHE GEO_TTL
    (fun _ _ hmem => absurd hmem (List.not_mem_nil _))

end SW
